import Mathlib

/-!
Shallow embedding of `crates/bevy_sprite/src/texture_atlas.rs`.

Numeric values (`f32` in the source) are modelled as exact rationals `ℚ`;
all inputs appearing in the concrete scenarios below are small integers on
which `f32` arithmetic is exact.  Rust's `as i32` cast on floats truncates
toward zero and saturates at the `i32` bounds; division of a positive float
by zero yields positive infinity, which the cast saturates to `i32::MAX`
(a negative float over zero gives negative infinity, saturating to
`i32::MIN`, and `0.0 / 0.0` is NaN, which the cast sends to `0`).
`Handle<Texture>` is an opaque comparable identifier, modelled as `ℕ`;
`HashMap<Handle<Texture>, usize>` is modelled as an association list.
-/

/-- `bevy_math::Vec2`, with exact rational components. -/
structure Vec2 where
  x : ℚ
  y : ℚ
deriving DecidableEq

/-- `bevy_sprite::Rect`: axis-aligned region given by two corners. -/
structure Rect where
  min : Vec2
  max : Vec2
deriving DecidableEq

/-- `PaddingSpecification`: four independent margins. -/
structure PaddingSpecification where
  left : ℚ
  top : ℚ
  right : ℚ
  bottom : ℚ
deriving DecidableEq

/-- `PaddingSpecification::new(left, top, right, bottom)`. -/
def PaddingSpecification.new (left top right bottom : ℚ) : PaddingSpecification :=
  { left := left, top := top, right := right, bottom := bottom }

/-- `PaddingSpecification::uniform(value)`, i.e. `Self::new(v.x, v.y, v.x, v.y)`. -/
def PaddingSpecification.uniform (value : Vec2) : PaddingSpecification :=
  PaddingSpecification.new value.x value.y value.x value.y

/-- The derived `Default` for `PaddingSpecification`: all four `f32` fields zero. -/
def PaddingSpecification.default : PaddingSpecification :=
  PaddingSpecification.new 0 0 0 0

/-- The `TextureAtlas` record: texture handle, overall size, ordered
rectangle list, and the optional handle-to-index map. -/
structure TextureAtlas where
  texture : ℕ
  size : Vec2
  textures : List Rect
  texture_handles : Option (List (ℕ × ℕ))
deriving DecidableEq

/-- `i32::MAX`. -/
def i32_max : ℤ := 2147483647

/-- `i32::MIN`. -/
def i32_min : ℤ := -2147483648

/-- Truncation of a rational toward zero, as Rust float-to-integer casts do. -/
def ratTrunc (q : ℚ) : ℤ :=
  if 0 ≤ q then ⌊q⌋ else ⌈q⌉

/-- Saturation of an integer to the `i32` range, as Rust `as i32` does. -/
def satI32 (n : ℤ) : ℤ :=
  max i32_min (min i32_max n)

/-- Models the Rust expression `(a / b) as i32` evaluated on `f32` values:
truncation toward zero, saturating at the `i32` bounds.  When `b = 0` the
float division yields an infinity (saturating to the corresponding bound)
or NaN (cast to `0`) instead of a rational, so that case is spelled out. -/
def divAsI32 (a b : ℚ) : ℤ :=
  if b = 0 then
    if 0 < a then i32_max else if a < 0 then i32_min else 0
  else satI32 (ratTrunc (a / b))

/-- Rust's `0..n` range on `i32` as a list (empty when `n ≤ 0`). -/
def rangeI32 (n : ℤ) : List ℤ :=
  (List.range n.toNat).map Int.ofNat

/-- `TextureAtlas::new_empty`. -/
def TextureAtlas.new_empty (texture : ℕ) (dimensions : Vec2) : TextureAtlas :=
  { texture := texture
    size := dimensions
    texture_handles := none
    textures := [] }

/-- `TextureAtlas::from_grid_with_padding` (the generic `Into` on the
padding argument is applied at call sites). -/
def TextureAtlas.from_grid_with_padding (texture : ℕ) (tile_size : Vec2)
    (texture_dimensions : Vec2) (padding : PaddingSpecification) : TextureAtlas :=
  let x_padding : ℚ := padding.left + padding.right
  let y_padding : ℚ := padding.top + padding.bottom
  let rows : ℤ := divAsI32 texture_dimensions.x (tile_size.x + x_padding)
  let columns : ℤ := divAsI32 texture_dimensions.y (tile_size.y + y_padding)
  let sprites : List Rect :=
    (rangeI32 rows).flatMap fun (y : ℤ) =>
      (rangeI32 columns).map fun (x : ℤ) =>
        let rect_min : Vec2 :=
          { x := (tile_size.x + x_padding) * (x : ℚ) + padding.left
            y := (tile_size.y + y_padding) * (y : ℚ) + padding.top }
        { min := rect_min
          max := { x := rect_min.x + tile_size.x, y := rect_min.y + tile_size.y } }
  { size := texture_dimensions
    textures := sprites
    texture := texture
    texture_handles := none }

/-- `TextureAtlas::from_grid`: grid slicing with the default (all-zero) padding. -/
def TextureAtlas.from_grid (texture : ℕ) (tile_size : Vec2)
    (texture_dimensions : Vec2) : TextureAtlas :=
  TextureAtlas.from_grid_with_padding texture tile_size texture_dimensions
    PaddingSpecification.default

/-- `TextureAtlas::add_texture`: pushes `rect` onto the rectangle list. -/
def TextureAtlas.add_texture (a : TextureAtlas) (rect : Rect) : TextureAtlas :=
  { a with textures := a.textures ++ [rect] }

/-- `TextureAtlas::len`. -/
def TextureAtlas.len (a : TextureAtlas) : ℕ :=
  a.textures.length

/-- `TextureAtlas::is_empty`. -/
def TextureAtlas.is_empty (a : TextureAtlas) : Bool :=
  a.textures.isEmpty

/-- `TextureAtlas::get_texture_index`: reads the optional map, then the key. -/
def TextureAtlas.get_texture_index (a : TextureAtlas) (texture : ℕ) : Option ℕ :=
  a.texture_handles.bind fun texture_handles => texture_handles.lookup texture

/-- The rectangle the grid loop body builds for inner (horizontal) index `x`
and outer (vertical-coordinate) index `y`, with the two padding sums inlined. -/
def gridRect (tile_size : Vec2) (padding : PaddingSpecification) (x y : ℕ) : Rect :=
  { min := { x := (tile_size.x + (padding.left + padding.right)) * (x : ℚ) + padding.left
             y := (tile_size.y + (padding.top + padding.bottom)) * (y : ℚ) + padding.top }
    max := { x := (tile_size.x + (padding.left + padding.right)) * (x : ℚ) + padding.left
                    + tile_size.x
             y := (tile_size.y + (padding.top + padding.bottom)) * (y : ℚ) + padding.top
                    + tile_size.y } }

theorem divAsI32_eq_of (a b : ℚ) (n : ℤ) (hb : b ≠ 0) (h0 : 0 ≤ n) (hle : (n : ℚ) ≤ a / b)
    (hlt : a / b < n + 1) (hmax : n ≤ i32_max) : divAsI32 a b = n := by
  have hq : 0 ≤ a / b := le_trans (by exact_mod_cast h0) hle
  have hfl : ⌊a / b⌋ = n := Int.floor_eq_iff.mpr ⟨hle, by exact_mod_cast hlt⟩
  unfold divAsI32 ratTrunc satI32
  rw [if_neg hb, if_pos hq, hfl, min_eq_right hmax,
    max_eq_right (le_trans (by norm_num [i32_min]) h0)]

theorem divAsI32_eq_max_of (a b : ℚ) (hb : b ≠ 0) (h : (i32_max : ℚ) ≤ a / b) :
    divAsI32 a b = i32_max := by
  have hq : 0 ≤ a / b := le_trans (by norm_num [i32_max]) h
  have hfl : i32_max ≤ ⌊a / b⌋ := Int.le_floor.mpr h
  unfold divAsI32 ratTrunc satI32
  rw [if_neg hb, if_pos hq, min_eq_left hfl, max_eq_right (by norm_num [i32_min, i32_max])]

theorem divAsI32_eq_floor (a b : ℚ) (hb : 0 < b) (ha : 0 ≤ a) (hm : ⌊a / b⌋ ≤ i32_max) :
    divAsI32 a b = ⌊a / b⌋ := by
  have hq : 0 ≤ a / b := div_nonneg ha hb.le
  have h0 : 0 ≤ ⌊a / b⌋ := Int.floor_nonneg.mpr hq
  unfold divAsI32 ratTrunc satI32
  rw [if_neg hb.ne', if_pos hq, min_eq_right hm,
    max_eq_right (le_trans (by norm_num [i32_min]) h0)]

theorem divAsI32_nonpos (a b : ℚ) (hb : 0 < b) (hab : a < b) : divAsI32 a b ≤ 0 := by
  have hq : a / b < 1 := (div_lt_one hb).mpr hab
  unfold divAsI32 ratTrunc satI32
  rw [if_neg hb.ne']
  have htr : (if 0 ≤ a / b then ⌊a / b⌋ else ⌈a / b⌉) ≤ 0 := by
    rcases le_or_lt 0 (a / b) with h | h
    · rw [if_pos h]
      have : ⌊a / b⌋ < 1 := Int.floor_lt.mpr (by exact_mod_cast hq)
      omega
    · rw [if_neg (not_le.mpr h)]
      exact Int.ceil_le.mpr (by exact_mod_cast h.le)
  have hmin : min i32_max (if 0 ≤ a / b then ⌊a / b⌋ else ⌈a / b⌉) ≤ 0 :=
    le_trans (min_le_right _ _) htr
  exact max_le (by norm_num [i32_min]) hmin

theorem length_grid_flatMap {α : Type} (R C : ℕ) (f : ℕ → ℕ → α) :
    ((List.range R).flatMap fun y => (List.range C).map fun x => f y x).length = R * C := by
  induction R with
  | zero => simp
  | succ R ih =>
    rw [List.range_succ, List.flatMap_append, List.length_append, ih]
    simp [Nat.succ_mul]

theorem getElem?_grid_flatMap {α : Type} (R C : ℕ) (f : ℕ → ℕ → α) (i j : ℕ)
    (hi : i < R) (hj : j < C) :
    ((List.range R).flatMap fun y => (List.range C).map fun x => f y x)[i * C + j]? =
      some (f i j) := by
  induction R with
  | zero => exact absurd hi (Nat.not_lt_zero i)
  | succ R ih =>
    rw [List.range_succ, List.flatMap_append]
    have hlen : ((List.range R).flatMap fun y => (List.range C).map fun x => f y x).length
        = R * C := length_grid_flatMap R C f
    rcases Nat.lt_or_ge i R with h | h
    · have hlt : i * C + j < R * C := by
        have h1 : i * C + j < (i + 1) * C := by
          calc i * C + j < i * C + C := by omega
          _ = (i + 1) * C := by ring
        exact lt_of_lt_of_le h1 (Nat.mul_le_mul_right C h)
      rw [List.getElem?_append, if_pos (by rw [hlen]; exact hlt)]
      exact ih h
    · have hiR : i = R := by omega
      subst hiR
      rw [List.getElem?_append_right (by rw [hlen]; exact Nat.le_add_right _ j), hlen,
        Nat.add_sub_cancel_left]
      simp only [List.flatMap_cons, List.flatMap_nil, List.append_nil]
      rw [List.getElem?_map, List.getElem?_range hj]
      rfl

/-- The rectangle list built by `from_grid_with_padding`, rewritten over
natural-number ranges (the source iterates Rust ranges over `i32`). -/
theorem from_grid_textures_eq (t : ℕ) (ts td : Vec2) (p : PaddingSpecification) :
    (TextureAtlas.from_grid_with_padding t ts td p).textures =
      (List.range (divAsI32 td.x (ts.x + (p.left + p.right))).toNat).flatMap fun y =>
        (List.range (divAsI32 td.y (ts.y + (p.top + p.bottom))).toNat).map fun x =>
          gridRect ts p x y := by
  unfold TextureAtlas.from_grid_with_padding rangeI32
  simp only [List.flatMap_map, List.map_map]
  refine congrArg (List.flatMap
    (List.range (divAsI32 td.x (ts.x + (p.left + p.right))).toNat)) (funext fun y => ?_)
  refine List.map_congr_left fun x _ => ?_
  simp only [Function.comp_apply, gridRect, Int.ofNat_eq_natCast, Int.cast_natCast]

theorem from_grid_len (t : ℕ) (ts td : Vec2) (p : PaddingSpecification) :
    (TextureAtlas.from_grid_with_padding t ts td p).len =
      (divAsI32 td.x (ts.x + (p.left + p.right))).toNat *
        (divAsI32 td.y (ts.y + (p.top + p.bottom))).toNat := by
  rw [TextureAtlas.len, from_grid_textures_eq, length_grid_flatMap]

theorem toNat_mul_swap {A B : ℤ} (hA : 0 ≤ A) (hB : 0 ≤ B) :
    A.toNat * B.toNat = (B * A).toNat := by
  have h1 : ((A.toNat * B.toNat : ℕ) : ℤ) = A * B := by
    push_cast [Int.toNat_of_nonneg hA, Int.toNat_of_nonneg hB]
    ring
  have h2 : (((B * A).toNat : ℕ) : ℤ) = A * B := by
    rw [Int.toNat_of_nonneg (mul_nonneg hB hA), mul_comm]
  exact_mod_cast h1.trans h2.symm

/-- Concrete evaluation of the first spec scenario: tile `(32,32)`,
dimensions `(128,64)`, zero padding. -/
theorem grid_scenario_textures :
    (TextureAtlas.from_grid 0 ⟨32, 32⟩ ⟨128, 64⟩).textures =
      [⟨⟨0, 0⟩, ⟨32, 32⟩⟩, ⟨⟨32, 0⟩, ⟨64, 32⟩⟩,
       ⟨⟨0, 32⟩, ⟨32, 64⟩⟩, ⟨⟨32, 32⟩, ⟨64, 64⟩⟩,
       ⟨⟨0, 64⟩, ⟨32, 96⟩⟩, ⟨⟨32, 64⟩, ⟨64, 96⟩⟩,
       ⟨⟨0, 96⟩, ⟨32, 128⟩⟩, ⟨⟨32, 96⟩, ⟨64, 128⟩⟩] := by
  have hR : divAsI32 (128 : ℚ) (32 + (0 + 0)) = 4 :=
    divAsI32_eq_of _ _ 4 (by norm_num) (by norm_num) (by norm_num) (by norm_num)
      (by norm_num [i32_max])
  have hC : divAsI32 (64 : ℚ) (32 + (0 + 0)) = 2 :=
    divAsI32_eq_of _ _ 2 (by norm_num) (by norm_num) (by norm_num) (by norm_num)
      (by norm_num [i32_max])
  have hRn : (divAsI32 (128 : ℚ) (32 + (0 + 0))).toNat = 4 := by rw [hR]; rfl
  have hCn : (divAsI32 (64 : ℚ) (32 + (0 + 0))).toNat = 2 := by rw [hC]; rfl
  rw [TextureAtlas.from_grid, from_grid_textures_eq]
  simp only [PaddingSpecification.default, PaddingSpecification.new]
  rw [hRn, hCn]
  norm_num [List.range_succ, gridRect]

/-- Concrete evaluation of the second spec scenario: tile `(32,32)`,
dimensions `(128,64)`, uniform padding `(2,2)` (so each divisor is `36`). -/
theorem grid_padded_textures :
    (TextureAtlas.from_grid_with_padding 0 ⟨32, 32⟩ ⟨128, 64⟩
        (PaddingSpecification.uniform ⟨2, 2⟩)).textures =
      [⟨⟨2, 2⟩, ⟨34, 34⟩⟩, ⟨⟨2, 38⟩, ⟨34, 70⟩⟩, ⟨⟨2, 74⟩, ⟨34, 106⟩⟩] := by
  have hR : divAsI32 (128 : ℚ) (32 + (2 + 2)) = 3 :=
    divAsI32_eq_of _ _ 3 (by norm_num) (by norm_num) (by norm_num) (by norm_num)
      (by norm_num [i32_max])
  have hC : divAsI32 (64 : ℚ) (32 + (2 + 2)) = 1 :=
    divAsI32_eq_of _ _ 1 (by norm_num) (by norm_num) (by norm_num) (by norm_num)
      (by norm_num [i32_max])
  have hRn : (divAsI32 (128 : ℚ) (32 + (2 + 2))).toNat = 3 := by rw [hR]; rfl
  have hCn : (divAsI32 (64 : ℚ) (32 + (2 + 2))).toNat = 1 := by rw [hC]; rfl
  rw [from_grid_textures_eq]
  simp only [PaddingSpecification.uniform, PaddingSpecification.new]
  rw [hRn, hCn]
  norm_num [List.range_succ, gridRect]

/-- C1 counterexample: at tile `(32,32)`, dimensions `(128,64)`, zero padding,
the rectangle at sequence index 3 is not `min(96,0)/max(128,32)`. -/
theorem grid_scenario_rect3_mismatch :
    (TextureAtlas.from_grid 0 ⟨32, 32⟩ ⟨128, 64⟩).textures[3]? ≠
      some ⟨⟨96, 0⟩, ⟨128, 32⟩⟩ := by
  rw [grid_scenario_textures]
  intro h
  have h2 : (Rect.mk ⟨32, 32⟩ ⟨64, 64⟩) = ⟨⟨96, 0⟩, ⟨128, 32⟩⟩ := Option.some.inj h
  simp only [Rect.mk.injEq, Vec2.mk.injEq] at h2
  exact absurd h2.1.1 (by norm_num)

/-- C1 (amended): grid slicing with tile `(32,32)`, dimensions `(128,64)` and
zero padding produces exactly 8 rectangles; rectangle 0 is
`min(0,0)/max(32,32)`, rectangle 3 is `min(32,32)/max(64,64)`, and rectangle 4
is `min(0,64)/max(32,96)` (the code pairs the width-derived count with the
outer loop and multiplies the x coordinate by the inner index, transposing the
conventional row-major layout). -/
theorem grid_scenario_actual :
    (TextureAtlas.from_grid 0 ⟨32, 32⟩ ⟨128, 64⟩).len = 8 ∧
    (TextureAtlas.from_grid 0 ⟨32, 32⟩ ⟨128, 64⟩).textures[0]? = some ⟨⟨0, 0⟩, ⟨32, 32⟩⟩ ∧
    (TextureAtlas.from_grid 0 ⟨32, 32⟩ ⟨128, 64⟩).textures[3]? = some ⟨⟨32, 32⟩, ⟨64, 64⟩⟩ ∧
    (TextureAtlas.from_grid 0 ⟨32, 32⟩ ⟨128, 64⟩).textures[4]? = some ⟨⟨0, 64⟩, ⟨32, 96⟩⟩ := by
  refine ⟨?_, ?_, ?_, ?_⟩
  · rw [TextureAtlas.len, grid_scenario_textures]; rfl
  · rw [grid_scenario_textures]; rfl
  · rw [grid_scenario_textures]; rfl
  · rw [grid_scenario_textures]; rfl

/-- C2: with tile size `(0,0)` (and zero padding) the code does not reject the
input; both float divisions yield positive infinity, the saturating casts turn
both loop bounds into `i32::MAX`, and the nested loop is scheduled for
`2147483647 * 2147483647` pushes.  No `InvalidTileSize` error exists anywhere
in the source. -/
theorem grid_zero_tile_size_loop_count :
    (TextureAtlas.from_grid_with_padding 0 ⟨0, 0⟩ ⟨128, 64⟩ PaddingSpecification.default).len
      = 2147483647 * 2147483647 := by
  rw [from_grid_len]
  simp only [PaddingSpecification.default, PaddingSpecification.new]
  norm_num [divAsI32, i32_max]
  rfl

/-- C3 counterexample: with uniform padding `(2,2)` the rectangle at sequence
index 1 does not have `min = (36,2)`. -/
theorem grid_padded_rect1_min_mismatch :
    Option.map Rect.min ((TextureAtlas.from_grid_with_padding 0 ⟨32, 32⟩ ⟨128, 64⟩
        (PaddingSpecification.uniform ⟨2, 2⟩)).textures[1]?) ≠ some ⟨36, 2⟩ := by
  rw [grid_padded_textures]
  intro h
  have h2 : (Vec2.mk 2 38) = ⟨36, 2⟩ := Option.some.inj h
  simp only [Vec2.mk.injEq] at h2
  exact absurd h2.1 (by norm_num)

/-- C3 (amended): grid slicing with tile `(32,32)`, dimensions `(128,64)` and
uniform padding `(2,2)` uses a divisor of `36` per axis (tile plus both
margins), producing exactly 3 rectangles, and the rectangle at sequence
index 1 has `min = (2,38)`. -/
theorem grid_padded_scenario_actual :
    (TextureAtlas.from_grid_with_padding 0 ⟨32, 32⟩ ⟨128, 64⟩
        (PaddingSpecification.uniform ⟨2, 2⟩)).len = 3 ∧
    (TextureAtlas.from_grid_with_padding 0 ⟨32, 32⟩ ⟨128, 64⟩
        (PaddingSpecification.uniform ⟨2, 2⟩)).textures[1]? = some ⟨⟨2, 38⟩, ⟨34, 70⟩⟩ := by
  refine ⟨?_, ?_⟩
  · rw [TextureAtlas.len, grid_padded_textures]; rfl
  · rw [grid_padded_textures]; rfl

/-- C4 counterexample: at tile `(32,32)`, dimensions `(2^36, 32)`, zero
padding, the produced count is `2147483647` (the width quotient saturates at
`i32::MAX`), not the floor-formula product `1 * 2^31`. -/
theorem grid_count_saturates :
    (TextureAtlas.from_grid_with_padding 0 ⟨32, 32⟩ ⟨68719476736, 32⟩
        PaddingSpecification.default).len ≠
      (⌊(32 : ℚ) / (32 + (0 + 0))⌋ * ⌊(68719476736 : ℚ) / (32 + (0 + 0))⌋).toNat := by
  have h1 : divAsI32 (68719476736 : ℚ) (32 + (0 + 0)) = i32_max :=
    divAsI32_eq_max_of _ _ (by norm_num) (by norm_num [i32_max])
  have h2 : divAsI32 (32 : ℚ) (32 + (0 + 0)) = 1 :=
    divAsI32_eq_of _ _ 1 (by norm_num) (by norm_num) (by norm_num) (by norm_num)
      (by norm_num [i32_max])
  rw [from_grid_len]
  simp only [PaddingSpecification.default, PaddingSpecification.new]
  rw [h1, h2]
  have hL : i32_max.toNat * ((1 : ℤ)).toNat = 2147483647 := rfl
  rw [hL]
  have hf1 : (⌊(32 : ℚ) / (32 + (0 + 0))⌋ : ℤ) = 1 := by norm_num
  have hf2 : (⌊(68719476736 : ℚ) / (32 + (0 + 0))⌋ : ℤ) = 2147483648 := by norm_num
  rw [hf1, hf2]
  have hRn : ((1 * 2147483648 : ℤ)).toNat = 2147483648 := rfl
  rw [hRn]
  norm_num

/-- C4 (amended): for tile components positive, paddings nonnegative,
dimensions nonnegative, and both floor quotients within the `i32` range, the
number of rectangles equals `rows * columns` computed by the floor-division
formula (rows from the height divided by tile height plus vertical padding,
columns from the width divided by tile width plus horizontal padding). -/
theorem grid_count_eq_floor_product (t : ℕ) (ts td : Vec2) (p : PaddingSpecification)
    (hx : 0 < ts.x) (hy : 0 < ts.y)
    (hl : 0 ≤ p.left) (hr : 0 ≤ p.right) (ht : 0 ≤ p.top) (hb : 0 ≤ p.bottom)
    (hdx : 0 ≤ td.x) (hdy : 0 ≤ td.y)
    (hmx : ⌊td.x / (ts.x + (p.left + p.right))⌋ ≤ i32_max)
    (hmy : ⌊td.y / (ts.y + (p.top + p.bottom))⌋ ≤ i32_max) :
    (TextureAtlas.from_grid_with_padding t ts td p).len =
      (⌊td.y / (ts.y + (p.top + p.bottom))⌋ * ⌊td.x / (ts.x + (p.left + p.right))⌋).toNat := by
  have hbx : 0 < ts.x + (p.left + p.right) := by linarith
  have hby : 0 < ts.y + (p.top + p.bottom) := by linarith
  rw [from_grid_len, divAsI32_eq_floor _ _ hbx hdx hmx, divAsI32_eq_floor _ _ hby hdy hmy]
  exact toNat_mul_swap (Int.floor_nonneg.mpr (div_nonneg hdx hbx.le))
    (Int.floor_nonneg.mpr (div_nonneg hdy hby.le))

/-- C4 witness: the amended count formula evaluated at tile `(32,32)`,
dimensions `(128,64)`, zero padding, giving `2 * 4 = 8`. -/
theorem grid_count_eq_floor_product_witness :
    (TextureAtlas.from_grid_with_padding 0 ⟨32, 32⟩ ⟨128, 64⟩ PaddingSpecification.default).len =
      (⌊(64 : ℚ) / (32 + (0 + 0))⌋ * ⌊(128 : ℚ) / (32 + (0 + 0))⌋).toNat :=
  grid_count_eq_floor_product 0 ⟨32, 32⟩ ⟨128, 64⟩ PaddingSpecification.default
    (by norm_num) (by norm_num)
    (by norm_num [PaddingSpecification.default, PaddingSpecification.new])
    (by norm_num [PaddingSpecification.default, PaddingSpecification.new])
    (by norm_num [PaddingSpecification.default, PaddingSpecification.new])
    (by norm_num [PaddingSpecification.default, PaddingSpecification.new])
    (by norm_num) (by norm_num)
    (by norm_num [PaddingSpecification.default, PaddingSpecification.new, i32_max])
    (by norm_num [PaddingSpecification.default, PaddingSpecification.new, i32_max])

/-- C5: lookup returns none for every identifier on grid-built and empty
atlases (the grid path leaves the optional index map absent), and in general
it returns a stored position exactly when the optional map is present and
contains the key. -/
theorem lookup_index_contract :
    (∀ (t : ℕ) (ts td : Vec2) (p : PaddingSpecification) (k : ℕ),
        (TextureAtlas.from_grid_with_padding t ts td p).texture_handles = none ∧
        (TextureAtlas.from_grid_with_padding t ts td p).get_texture_index k = none) ∧
    (∀ (t : ℕ) (d : Vec2) (k : ℕ), (TextureAtlas.new_empty t d).get_texture_index k = none) ∧
    (∀ (a : TextureAtlas) (k i : ℕ),
        a.get_texture_index k = some i ↔
          ∃ m, a.texture_handles = some m ∧ m.lookup k = some i) := by
  refine ⟨fun t ts td p k => ⟨rfl, rfl⟩, fun t d k => rfl, fun a k i => ?_⟩
  simp [TextureAtlas.get_texture_index, Option.bind_eq_some]

/-- C6: appending a rectangle places it at sequence index N (the previous
length), makes the count N + 1, and leaves every previously stored rectangle
at its existing index (the old list is an unchanged prefix). -/
theorem add_texture_appends (a : TextureAtlas) (r : Rect) :
    (a.add_texture r).textures[a.len]? = some r ∧
    (a.add_texture r).len = a.len + 1 ∧
    (a.add_texture r).textures.take a.len = a.textures := by
  refine ⟨?_, ?_, ?_⟩
  · show (a.textures ++ [r])[a.textures.length]? = some r
    exact List.getElem?_concat_length a.textures r
  · show (a.textures ++ [r]).length = a.textures.length + 1
    simp
  · show (a.textures ++ [r]).take a.textures.length = a.textures
    exact List.take_left a.textures [r]

/-- C7: every rectangle produced by grid slicing has extent exactly the tile
size on both axes (maximum corner minus minimum corner equals tileSize). -/
theorem grid_rect_extent_eq_tile_size (t : ℕ) (ts td : Vec2) (p : PaddingSpecification)
    (r : Rect) (hr : r ∈ (TextureAtlas.from_grid_with_padding t ts td p).textures) :
    r.max.x - r.min.x = ts.x ∧ r.max.y - r.min.y = ts.y := by
  rw [from_grid_textures_eq] at hr
  simp only [List.mem_flatMap, List.mem_map] at hr
  obtain ⟨y, -, x, -, rfl⟩ := hr
  refine ⟨?_, ?_⟩ <;> simp only [gridRect] <;> ring

/-- C7 witness: the extent property applied to the rectangle at index 0 of
the first scenario. -/
theorem grid_rect_extent_eq_tile_size_witness :
    (Rect.mk ⟨0, 0⟩ ⟨32, 32⟩).max.x - (Rect.mk ⟨0, 0⟩ ⟨32, 32⟩).min.x = (Vec2.mk 32 32).x ∧
    (Rect.mk ⟨0, 0⟩ ⟨32, 32⟩).max.y - (Rect.mk ⟨0, 0⟩ ⟨32, 32⟩).min.y = (Vec2.mk 32 32).y :=
  grid_rect_extent_eq_tile_size 0 ⟨32, 32⟩ ⟨128, 64⟩ PaddingSpecification.default
    ⟨⟨0, 0⟩, ⟨32, 32⟩⟩
    (by
      show (⟨⟨0, 0⟩, ⟨32, 32⟩⟩ : Rect) ∈ (TextureAtlas.from_grid 0 ⟨32, 32⟩ ⟨128, 64⟩).textures
      rw [grid_scenario_textures]
      simp)

/-- C8: when the tile size plus its padding pair exceeds the texture
dimensions on either axis (valid tile and padding assumed), grid slicing
produces zero rectangles and returns normally. -/
theorem grid_oversized_tile_yields_empty (t : ℕ) (ts td : Vec2) (p : PaddingSpecification)
    (hx : 0 < ts.x) (hy : 0 < ts.y)
    (hl : 0 ≤ p.left) (hr : 0 ≤ p.right) (ht : 0 ≤ p.top) (hb : 0 ≤ p.bottom)
    (hex : td.x < ts.x + (p.left + p.right) ∨ td.y < ts.y + (p.top + p.bottom)) :
    (TextureAtlas.from_grid_with_padding t ts td p).len = 0 := by
  rw [from_grid_len]
  rcases hex with h | h
  · have h0 : divAsI32 td.x (ts.x + (p.left + p.right)) ≤ 0 :=
      divAsI32_nonpos _ _ (by linarith) h
    rw [Int.toNat_of_nonpos h0, Nat.zero_mul]
  · have h0 : divAsI32 td.y (ts.y + (p.top + p.bottom)) ≤ 0 :=
      divAsI32_nonpos _ _ (by linarith) h
    rw [Int.toNat_of_nonpos h0, Nat.mul_zero]

/-- C8 witness: a 32-wide tile on a 16-wide texture yields an empty atlas. -/
theorem grid_oversized_tile_yields_empty_witness :
    (TextureAtlas.from_grid_with_padding 0 ⟨32, 32⟩ ⟨16, 64⟩
        PaddingSpecification.default).len = 0 :=
  grid_oversized_tile_yields_empty 0 ⟨32, 32⟩ ⟨16, 64⟩ PaddingSpecification.default
    (by norm_num) (by norm_num)
    (by norm_num [PaddingSpecification.default, PaddingSpecification.new])
    (by norm_num [PaddingSpecification.default, PaddingSpecification.new])
    (by norm_num [PaddingSpecification.default, PaddingSpecification.new])
    (by norm_num [PaddingSpecification.default, PaddingSpecification.new])
    (Or.inl (by norm_num [PaddingSpecification.default, PaddingSpecification.new]))

/-- C9: the symmetric padding constructor sets both horizontal margins to the
x component and both vertical margins to the y component of its argument. -/
theorem uniform_padding_symmetric (v : Vec2) :
    (PaddingSpecification.uniform v).left = v.x ∧
    (PaddingSpecification.uniform v).right = v.x ∧
    (PaddingSpecification.uniform v).top = v.y ∧
    (PaddingSpecification.uniform v).bottom = v.y :=
  ⟨rfl, rfl, rfl, rfl⟩

/-- C10: appending a rectangle changes only the rectangle sequence: the
texture handle, the stored size, and the optional index map are untouched. -/
theorem add_texture_preserves_frame (a : TextureAtlas) (r : Rect) :
    (a.add_texture r).texture = a.texture ∧
    (a.add_texture r).size = a.size ∧
    (a.add_texture r).texture_handles = a.texture_handles :=
  ⟨rfl, rfl, rfl⟩
